import Mathlib

/-!
Shallow embedding of the trivia backend (`backend/flaskr/__init__.py`):
the pagination helper, the request handlers for categories, questions,
deletion, creation/search, questions-by-category, and the quiz picker,
together with the JSON error bodies produced by the registered error
handlers.  Request context (query parameters, JSON body) is passed as
explicit arguments; the database is a list-valued application state.
-/

namespace Trivia

/-- A JSON scalar value as it appears in a request body. -/
inductive JsonVal where
  | jnull
  | jbool (b : Bool)
  | jnum (n : Int)
  | jstr (s : String)
  deriving DecidableEq, Repr

/-- Python truthiness of a JSON scalar (`if x:`): `None`, `False`, `0`
and the empty string are falsy, everything else is truthy. -/
def JsonVal.truthy : JsonVal → Bool
  | .jnull => false
  | .jbool b => b
  | .jnum n => n != 0
  | .jstr s => s != ""

/-- Truthiness of `body.get(key)`: a missing key yields `None`, which is falsy. -/
def truthyOpt : Option JsonVal → Bool
  | none => false
  | some v => v.truthy

/-- Python `not item` applied to the result of `body.get(key)`. -/
def falsyOpt (o : Option JsonVal) : Bool := !(truthyOpt o)

/-- A persisted `Question` record (models.py: id, question, answer,
category, difficulty).  Integer-valued columns are embedded as `Int`. -/
structure Question where
  id : Int
  question : String
  answer : String
  category : Int
  difficulty : Int
  deriving DecidableEq, Repr

/-- A persisted `Category` record (models.py: id, type). -/
structure Category where
  id : Int
  type : String
  deriving DecidableEq, Repr

/-- The dictionary produced by `Question.format()`. -/
structure FormattedQuestion where
  id : Int
  question : String
  answer : String
  category : Int
  difficulty : Int
  deriving DecidableEq, Repr

/-- Modelled from the spec: `Question.format` lives in models.py, which is
not among the provided sources; per the data model (§3) it returns the
record's id, question, answer, category and difficulty fields. -/
def Question.format (q : Question) : FormattedQuestion :=
  ⟨q.id, q.question, q.answer, q.category, q.difficulty⟩

/-- The application state: the persisted questions and categories, in
the order the store returns them. -/
structure AppState where
  questions : List Question
  categories : List Category
  deriving DecidableEq, Repr

/-- Clamp a (possibly negative) Python slice endpoint to an index into a
list of length `len`: a negative endpoint counts from the end, a large
one is clamped to `len`. -/
def pyIndex (len : Nat) (i : Int) : Nat :=
  if i < 0 then (len + i).toNat else min i.toNat len

/-- Python list slicing `l[a:b]` (step 1). -/
def pySlice {α : Type} (l : List α) (a b : Int) : List α :=
  (l.take (pyIndex l.length b)).drop (pyIndex l.length a)

/-- `QUESTIONS_PER_PAGE = 10`. -/
def QUESTIONS_PER_PAGE : Int := 10

/-- `paginate_questions(selection)`.  The page number comes from
`request.args.get('page', 1, type=int)`, embedded as `pageParam`:
`none` when the query parameter is absent or not parseable as an
integer (Flask then substitutes the default `1`). -/
def paginate_questions (selection : List Question) (pageParam : Option Int) :
    List FormattedQuestion :=
  let page := pageParam.getD 1
  let start := (page - 1) * QUESTIONS_PER_PAGE
  let stop := start + QUESTIONS_PER_PAGE
  let questions := selection.map Question.format
  pySlice questions start stop

/-- The JSON body produced by the registered error handlers. -/
structure ErrorBody where
  success : Bool
  error : Int
  message : String
  deriving DecidableEq, Repr

/-- The `@app.errorhandler` functions for 400, 404, 422 and 500: an
uncaught abort or exception with one of these codes produces this body
(any other uncaught fault surfaces as the generic 500). -/
def errorBody (code : Int) : ErrorBody :=
  if code = 400 then ⟨false, 400, "Bad Request"⟩
  else if code = 404 then ⟨false, 404, "Not Found"⟩
  else if code = 422 then ⟨false, 422, "Unprocessable"⟩
  else ⟨false, 500, "Internal Server Error"⟩

/-- One assignment `d[k] = v` on a Python dict embedded as an
association list: an existing key is updated in place, a new key is
appended in insertion order. -/
def dictInsert (d : List (Int × String)) (k : Int) (v : String) :
    List (Int × String) :=
  if d.any (fun p => p.1 = k) then
    d.map (fun p => if p.1 = k then (k, v) else p)
  else
    d ++ [(k, v)]

/-- The loop `for category in categories: categories_dict[category.id] = category.type`. -/
def categoriesDict (cats : List Category) : List (Int × String) :=
  cats.foldl (fun d c => dictInsert d c.id c.type) []

/-- Response of `GET /categories`. -/
inductive CategoriesResponse where
  | err (code : Int)
  | ok (categories : List (Int × String))
  deriving DecidableEq, Repr

/-- `get_categories`: build the id-to-type dict from all stored
categories, abort 404 when it is empty, else return it.  The handler
performs no writes, so the state is returned unchanged. -/
def get_categories (s : AppState) : CategoriesResponse × AppState :=
  let categories_dict := categoriesDict s.categories
  if categories_dict.length = 0 then (.err 404, s)
  else (.ok categories_dict, s)

/-- SQLAlchemy `one_or_none()` on a query result list: `none` for an
empty result, the single row when there is exactly one, and an
exception (`MultipleResultsFound`, embedded as `.error`) otherwise. -/
def one_or_none {α : Type} : List α → Except Unit (Option α)
  | [] => .ok none
  | [x] => .ok (some x)
  | _ => .error ()

/-- Response of `DELETE /questions/{id}`. -/
inductive DeleteResponse where
  | err (code : Int)
  | ok (deleted : Int)
  deriving DecidableEq, Repr

/-- `delete_question(id)`.  The whole body sits inside
`try: ... except: abort(422)`; `abort(404)` raises an `HTTPException`,
which the bare `except` catches and replaces with `abort(422)` — so
every failure path, the not-found one included, answers 422. -/
def delete_question (s : AppState) (id : Int) : DeleteResponse × AppState :=
  match one_or_none (s.questions.filter (fun q => q.id = id)) with
  | .error _ => (.err 422, s)
  | .ok none => (.err 422, s)
  | .ok (some question) =>
      (.ok id, ⟨s.questions.filter (fun q => q.id ≠ question.id), s.categories⟩)

/-- Render a JSON scalar the way Python string interpolation would. -/
def JsonVal.toPyStr : JsonVal → String
  | .jnull => "None"
  | .jbool b => if b then "True" else "False"
  | .jnum n => toString n
  | .jstr s => s

/-- Coercion of a JSON scalar to an integer column value on insert
(models.py stores category and difficulty as integer columns). -/
def JsonVal.toPyInt : JsonVal → Int
  | .jnull => 0
  | .jbool b => if b then 1 else 0
  | .jnum n => n
  | .jstr s => (s.toInt?).getD 0

/-- `Question.question.ilike(f'%{term}%')`: case-insensitive substring
match of the search term against the question text (embedded-wildcard
characters inside the term are not modelled). -/
def ilikeContains (text term : String) : Bool :=
  decide (List.IsInfix (term.toList.map Char.toLower)
    (text.toList.map Char.toLower))

/-- The JSON body of a `POST /questions` request: each field is `none`
when the key is absent. -/
structure PostBody where
  searchTerm : Option JsonVal := none
  question : Option JsonVal := none
  answer : Option JsonVal := none
  difficulty : Option JsonVal := none
  category : Option JsonVal := none
  deriving DecidableEq, Repr

/-- Response of `POST /questions`. -/
inductive PostResponse where
  | err (code : Int)
  | searchOk (questions : List FormattedQuestion) (total_questions : Nat)
  | createOk (created : Int) (question_created : String)
      (questions : List FormattedQuestion) (total_questions : Nat)
  deriving DecidableEq, Repr

/-- The search branch of `post_question`: filter by `ilike`, abort 404
on no match, else return the paginated matches together with
`len(Question.query.all())`. -/
def searchBranch (s : AppState) (pageParam : Option Int) (term : JsonVal) :
    PostResponse × AppState :=
  let selection := s.questions.filter (fun q => ilikeContains q.question term.toPyStr)
  if selection.length = 0 then (.err 404, s)
  else
    let paginated := paginate_questions selection pageParam
    (.searchOk paginated s.questions.length, s)

/-- The create branch of `post_question`: abort 422 when any of the
four fields is falsy, else insert the new question (the store assigns
the identity id, embedded as the `nextId` argument) and return the
re-paginated question list.  `Question.query.order_by(Question.id)` is
embedded via insertion-sorting on ids. -/
def createBranch (s : AppState) (pageParam : Option Int) (body : PostBody)
    (nextId : Int) : PostResponse × AppState :=
  let new_question := body.question
  let new_answer := body.answer
  let new_difficulty := body.difficulty
  let new_category := body.category
  if falsyOpt new_question || falsyOpt new_answer ||
      falsyOpt new_difficulty || falsyOpt new_category then
    (.err 422, s)
  else
    let question : Question :=
      ⟨nextId, (new_question.getD .jnull).toPyStr, (new_answer.getD .jnull).toPyStr,
        (new_category.getD .jnull).toPyInt, (new_difficulty.getD .jnull).toPyInt⟩
    let questions := s.questions ++ [question]
    let selection := questions.mergeSort (fun a b => a.id ≤ b.id)
    let current_questions := paginate_questions selection pageParam
    (.createOk question.id question.question current_questions questions.length,
      ⟨questions, s.categories⟩)

/-- `post_question`: `search_term = body.get('searchTerm')`; a truthy
search term dispatches to the search branch, anything else (absent key
or falsy value) to the create branch. -/
def post_question (s : AppState) (pageParam : Option Int) (body : PostBody)
    (nextId : Int) : PostResponse × AppState :=
  match body.searchTerm with
  | some search_term =>
      if search_term.truthy then searchBranch s pageParam search_term
      else createBranch s pageParam body nextId
  | none => createBranch s pageParam body nextId

/-- Response of `GET /categories/{id}/questions`. -/
inductive CatQuestionsResponse where
  | err (code : Int)
  | ok (questions : List FormattedQuestion) (total_questions : Nat)
      (current_category : String)
  deriving DecidableEq, Repr

/-- `get_questions_by_category(id)`: look the category up with
`one_or_none` (an uncaught `MultipleResultsFound` surfaces as 500),
abort 400 when it is missing, else paginate the questions of that
category and report `len(Question.query.all())` as the total. -/
def get_questions_by_category (s : AppState) (pageParam : Option Int)
    (id : Int) : CatQuestionsResponse :=
  match one_or_none (s.categories.filter (fun c => c.id = id)) with
  | .error _ => .err 500
  | .ok none => .err 400
  | .ok (some category) =>
      let selection := s.questions.filter (fun q => q.category = category.id)
      let paginated := paginate_questions selection pageParam
      .ok paginated s.questions.length category.type

/-- The `quiz_category` object of a `POST /quizzes` body. -/
structure QuizCategory where
  id : Int
  type : String
  deriving DecidableEq, Repr

/-- The JSON body of a `POST /quizzes` request: a field is `none` when
its key is absent (or null). -/
structure QuizBody where
  previous_questions : Option (List Int) := none
  quiz_category : Option QuizCategory := none
  deriving DecidableEq, Repr

/-- Response of `POST /quizzes`.  `picked choices` stands for the
successful response whose question is `random.choice` over the
(nonempty) list `choices`; `random.choice` on an empty list raises an
`IndexError`, which no handler catches, so it surfaces as `err 500`. -/
inductive QuizResponse where
  | err (code : Int)
  | noQuestion
  | picked (choices : List Question)
  deriving DecidableEq, Repr

/-- The candidate question set of the quiz: all questions when the
selected category id is the sentinel `0`, else the questions of that
category. -/
def quizCandidates (s : AppState) (categoryId : Int) : List Question :=
  if categoryId = 0 then s.questions
  else s.questions.filter (fun q => q.category = categoryId)

/-- `get_random_quiz_question`: abort 400 when either field is missing;
resolve the candidate set; when `len(previous) == total` answer success
with no question; else filter out the previously seen ids and pick
uniformly from what is left (`random.choice` raising on an empty
filter result). -/
def get_random_quiz_question (s : AppState) (body : QuizBody) : QuizResponse :=
  match body.previous_questions, body.quiz_category with
  | some previous, some category =>
      let questions := quizCandidates s category.id
      let total := questions.length
      if previous.length = total then .noQuestion
      else
        let left_questions := questions.filter (fun q => ¬ previous.contains q.id)
        match left_questions with
        | [] => .err 500
        | q :: rest => .picked (q :: rest)
  | _, _ => .err 400

/-! Concrete sample data used to instantiate the theorems below. -/

/-- A sample store: two Science questions (ids 1, 2) and one Art
question (id 3). -/
def exState : AppState :=
  ⟨[⟨1, "Q1", "A1", 1, 1⟩, ⟨2, "Q2", "A2", 1, 2⟩, ⟨3, "Q3", "A3", 2, 3⟩],
    [⟨1, "Science"⟩, ⟨2, "Art"⟩]⟩

/-! Theorems, one per claim of the specification. -/

/-- Claim C8: GET /categories is a deterministic function of the stored
categories and performs no mutation, so two successive calls with no
intervening mutation return identical category mappings. -/
theorem get_categories_idempotent (s : AppState) :
    (get_categories s).2 = s ∧
    (get_categories ((get_categories s).2)).1 = (get_categories s).1 := by
  unfold get_categories
  by_cases h : (categoriesDict s.categories).length = 0 <;> simp [h]

/-- Claim C1 (code bug): DELETE /questions/{id} for an id absent from
the store is specified to answer 404 Not Found, but the handler's bare
`except` catches the `abort(404)` exception and replaces it with
`abort(422)`: on the sample store, deleting id 99999 answers 422 with
body `{success: false, error: 422, message: "Unprocessable"}`, not the
404 body the specification states. -/
theorem delete_nonexistent_returns_422 :
    (∀ q ∈ exState.questions, q.id ≠ 99999) ∧
    delete_question exState 99999 = (.err 422, exState) ∧
    errorBody 422 = ⟨false, 422, "Unprocessable"⟩ ∧
    errorBody 422 ≠ ⟨false, 404, "Not Found"⟩ := by
  refine ⟨by decide, ?_, by decide, by decide⟩
  rfl

/-- Claim C5: the quiz exhaustion check compares counts, not sets.  On
the sample store with category 2 (single question, id 3) and
`previous_questions = [3, 99]`: 99 lies outside the candidate set,
every candidate id is in `previous`, yet `len(previous) ≠ total`, so
the handler reaches `random.choice` on an empty remaining list, which
raises and surfaces as a 500 instead of the no-question outcome. -/
theorem quiz_count_exhaustion_check_misfires :
    ((99 : Int) ∈ ([3, 99] : List Int) ∧
      (99 : Int) ∉ (quizCandidates exState 2).map Question.id) ∧
    (∀ qid ∈ (quizCandidates exState 2).map Question.id,
      qid ∈ ([3, 99] : List Int)) ∧
    ([3, 99] : List Int).length ≠ (quizCandidates exState 2).length ∧
    get_random_quiz_question exState ⟨some [3, 99], some ⟨2, "Art"⟩⟩ = .err 500 := by
  refine ⟨⟨by decide, by decide⟩, by decide, by decide, ?_⟩
  rfl

/-- Length of a nonnegative-start Python slice of width 10. -/
theorem length_pySlice_ten {α : Type} (l : List α) (a : Int) (ha : 0 ≤ a) :
    ((pySlice l a (a + 10)).length : Int) =
      min 10 (max 0 ((l.length : Int) - a)) := by
  unfold pySlice pyIndex
  have h1 : ¬ a < 0 := by omega
  have h2 : ¬ a + 10 < 0 := by omega
  simp only [if_neg h1, if_neg h2, List.length_drop, List.length_take]
  omega

/-- Claim C2: the paginator returns the slice `[(p-1)*10 : p*10)` of
the formatted sequence, defaults the page to 1 when the parameter is
absent or non-numeric, and for a 1-based page `p` the result length is
`min(10, max(0, L - (p-1)*10))` (which is 0 when `p` exceeds the
available pages). -/
theorem paginate_questions_slice_and_length (selection : List Question)
    (p : Int) (hp : 1 ≤ p) :
    paginate_questions selection (some p) =
      pySlice (selection.map Question.format) ((p - 1) * 10) (p * 10) ∧
    paginate_questions selection none = paginate_questions selection (some 1) ∧
    ((paginate_questions selection (some p)).length : Int) =
      min 10 (max 0 ((selection.length : Int) - (p - 1) * 10)) := by
  refine ⟨?_, rfl, ?_⟩
  · unfold paginate_questions
    have h : (p - 1) * QUESTIONS_PER_PAGE + QUESTIONS_PER_PAGE = p * 10 := by
      unfold QUESTIONS_PER_PAGE; ring
    simp only [Option.getD, h]
    rfl
  · unfold paginate_questions
    have ha : 0 ≤ (p - 1) * QUESTIONS_PER_PAGE := by
      unfold QUESTIONS_PER_PAGE; nlinarith
    have := length_pySlice_ten (selection.map Question.format)
      ((p - 1) * QUESTIONS_PER_PAGE) ha
    simpa [QUESTIONS_PER_PAGE, List.length_map] using this

/-- Witness for C2 at the sample store with page 1. -/
theorem paginate_questions_slice_and_length_witness :
    (1 : Int) ≤ 1 ∧
    (paginate_questions exState.questions (some 1) =
      pySlice (exState.questions.map Question.format) ((1 - 1) * 10) (1 * 10) ∧
    paginate_questions exState.questions none =
      paginate_questions exState.questions (some 1) ∧
    ((paginate_questions exState.questions (some 1)).length : Int) =
      min 10 (max 0 ((exState.questions.length : Int) - (1 - 1) * 10))) :=
  ⟨by decide, paginate_questions_slice_and_length exState.questions 1 (by decide)⟩

/-- Claim C6: POST /questions in create mode (no search term) with any
of the four fields falsy answers 422 and leaves the store unchanged
(no question is inserted). -/
theorem create_mode_falsy_field_unprocessable (s : AppState)
    (pageParam : Option Int) (body : PostBody) (nextId : Int)
    (hs : body.searchTerm = none)
    (hf : falsyOpt body.question = true ∨ falsyOpt body.answer = true ∨
          falsyOpt body.difficulty = true ∨ falsyOpt body.category = true) :
    post_question s pageParam body nextId = (.err 422, s) := by
  unfold post_question
  rw [hs]
  unfold createBranch
  rcases hf with h | h | h | h <;> simp [h]

/-- Witness for C6: an empty body. -/
theorem create_mode_falsy_field_unprocessable_witness :
    (PostBody.mk none none none none none).searchTerm = none ∧
    falsyOpt (PostBody.mk none none none none none).question = true ∧
    post_question exState none (PostBody.mk none none none none none) 4 =
      (.err 422, exState) :=
  ⟨rfl, by decide,
    create_mode_falsy_field_unprocessable exState none
      (PostBody.mk none none none none none) 4 rfl (Or.inl (by decide))⟩

/-- Claim C9: a searchTerm that is present but falsy (such as the empty
string) dispatches to create mode, not search mode; in particular a
body holding only `searchTerm = ""` answers 422 because the create-mode
fields are all falsy. -/
theorem falsy_search_term_dispatches_create (s : AppState)
    (pageParam : Option Int) (body : PostBody) (nextId : Int) (v : JsonVal)
    (hp : body.searchTerm = some v) (hf : v.truthy = false) :
    post_question s pageParam body nextId = createBranch s pageParam body nextId ∧
    post_question s pageParam (PostBody.mk (some (.jstr "")) none none none none)
      nextId = (.err 422, s) := by
  constructor
  · unfold post_question
    rw [hp]
    simp [hf]
  · rfl

/-- Witness for C9 at the body `{searchTerm: ""}`. -/
theorem falsy_search_term_dispatches_create_witness :
    (PostBody.mk (some (.jstr "")) none none none none).searchTerm =
      some (.jstr "") ∧
    (JsonVal.jstr "").truthy = false ∧
    (post_question exState none
        (PostBody.mk (some (.jstr "")) none none none none) 4 =
      createBranch exState none
        (PostBody.mk (some (.jstr "")) none none none none) 4 ∧
    post_question exState none
        (PostBody.mk (some (.jstr "")) none none none none) 4 =
      (.err 422, exState)) :=
  ⟨rfl, by decide,
    falsy_search_term_dispatches_create exState none
      (PostBody.mk (some (.jstr "")) none none none none) 4 (.jstr "") rfl
      (by decide)⟩

/-- In a list whose keys are pairwise distinct, filtering for the key
of a member yields exactly that member. -/
theorem filter_key_eq_singleton {α : Type} (key : α → Int) :
    ∀ (l : List α), (l.map key).Nodup → ∀ c ∈ l,
      l.filter (fun x => key x = key c) = [c] := by
  intro l
  induction l with
  | nil => intro _ c hc; exact absurd hc (List.not_mem_nil c)
  | cons a l ih =>
      intro hnd c hc
      simp only [List.map_cons, List.nodup_cons, List.mem_map] at hnd
      rcases List.mem_cons.mp hc with rfl | hcl
      · rw [List.filter_cons_of_pos (by simp)]
        have hnil : l.filter (fun x => key x = key c) = [] := by
          rw [List.filter_eq_nil_iff]
          intro x hx
          simp only [decide_eq_true_eq]
          intro hxk
          exact hnd.1 ⟨x, hx, hxk⟩
        rw [hnil]
      · have hne : key a ≠ key c := by
          intro h
          exact hnd.1 ⟨c, hcl, h.symm⟩
        rw [List.filter_cons_of_neg (by simpa using hne)]
        exact ih hnd.2 c hcl

/-- Claim C7: GET /categories/{id}/questions answers 400 when no
category with that id exists; when the category exists (ids being
unique), it answers success with the paginated questions of that
category, the whole store's question count and the category's type. -/
theorem questions_by_category_400_and_success (s : AppState)
    (pageParam : Option Int) (id : Int) :
    ((∀ c ∈ s.categories, c.id ≠ id) →
      get_questions_by_category s pageParam id = .err 400) ∧
    (∀ c ∈ s.categories, c.id = id →
      (s.categories.map Category.id).Nodup →
      get_questions_by_category s pageParam id =
        .ok (paginate_questions
              (s.questions.filter (fun q => q.category = c.id)) pageParam)
          s.questions.length c.type) := by
  constructor
  · intro h
    unfold get_questions_by_category
    have hnil : s.categories.filter (fun c => c.id = id) = [] := by
      rw [List.filter_eq_nil_iff]
      intro c hc
      simpa using h c hc
    rw [hnil]
    rfl
  · intro c hc hid hnd
    unfold get_questions_by_category
    have hone : s.categories.filter (fun x => x.id = id) = [c] := by
      rw [← hid]
      exact filter_key_eq_singleton Category.id s.categories hnd c hc
    rw [hone]
    rfl

/-- Witness for C7: id 9999 is absent (400); id 1 is "Science". -/
theorem questions_by_category_400_and_success_witness :
    ((∀ c ∈ exState.categories, c.id ≠ 9999) ∧
      get_questions_by_category exState none 9999 = .err 400) ∧
    (Category.mk 1 "Science" ∈ exState.categories ∧
      (exState.categories.map Category.id).Nodup ∧
      get_questions_by_category exState none 1 =
        .ok (paginate_questions
              (exState.questions.filter (fun q => q.category = 1)) none)
          exState.questions.length "Science") :=
  ⟨⟨by decide,
      (questions_by_category_400_and_success exState none 9999).1 (by decide)⟩,
    ⟨by decide, by decide,
      (questions_by_category_400_and_success exState none 1).2
        (Category.mk 1 "Science") (by decide) rfl (by decide)⟩⟩

/-- Claim C10: in the success responses of GET /categories/{id}/questions
and of POST /questions in search mode, `total_questions` is the number
of questions in the entire store, not the size of the filtered
selection. -/
theorem total_questions_counts_whole_store (s : AppState)
    (pageParam : Option Int) (id : Int) (body : PostBody) (nextId : Int) :
    (∀ qs tq cc, get_questions_by_category s pageParam id = .ok qs tq cc →
      tq = s.questions.length) ∧
    (∀ v qs tq s2, body.searchTerm = some v → v.truthy = true →
      post_question s pageParam body nextId = (.searchOk qs tq, s2) →
      tq = s.questions.length) := by
  constructor
  · intro qs tq cc h
    unfold get_questions_by_category at h
    rcases hone : one_or_none (s.categories.filter (fun c => c.id = id)) with
      u | oc
    · rw [hone] at h; exact absurd h (by simp)
    · rw [hone] at h
      cases oc with
      | none => exact absurd h (by simp)
      | some category =>
          simp only [CatQuestionsResponse.ok.injEq] at h
          exact h.2.1.symm
  · intro v qs tq s2 hv htr h
    unfold post_question at h
    rw [hv] at h
    simp only [htr, if_true] at h
    unfold searchBranch at h
    by_cases hz :
        (s.questions.filter
          (fun q => ilikeContains q.question v.toPyStr)).length = 0
    · rw [if_pos hz] at h
      exact absurd h (by simp)
    · rw [if_neg hz] at h
      simp only [Prod.mk.injEq, PostResponse.searchOk.injEq] at h
      exact h.1.2.symm

/-- Witness for C10: search for "q" and category 1 on the sample
store; both totals are 3, the full store count, although each filtered
selection has fewer than 3 elements. -/
theorem total_questions_counts_whole_store_witness :
    exState.questions.length = exState.questions.length ∧
    exState.questions.length = exState.questions.length :=
  ⟨(total_questions_counts_whole_store exState none 1
      (PostBody.mk (some (.jstr "q1")) none none none none) 4).1
      (paginate_questions
        (exState.questions.filter (fun q => q.category = 1)) none)
      exState.questions.length "Science" (by decide),
    (total_questions_counts_whole_store exState none 1
      (PostBody.mk (some (.jstr "q1")) none none none none) 4).2
      (.jstr "q1")
      (paginate_questions
        (exState.questions.filter
          (fun q => ilikeContains q.question "q1")) none)
      exState.questions.length exState rfl (by decide) (by decide)⟩

/-- The quiz candidate set is a sublist of the stored questions. -/
theorem quizCandidates_sublist (s : AppState) (cid : Int) :
    (quizCandidates s cid).Sublist s.questions := by
  unfold quizCandidates
  split
  · exact List.Sublist.refl _
  · exact List.filter_sublist _

/-- Distinct stored ids stay distinct on the quiz candidate set. -/
theorem quizCandidates_ids_nodup (s : AppState) (cid : Int)
    (hq : (s.questions.map Question.id).Nodup) :
    ((quizCandidates s cid).map Question.id).Nodup :=
  hq.sublist (List.Sublist.map Question.id (quizCandidates_sublist s cid))

/-- Unfolding equation of the quiz handler when both body fields are
present. -/
theorem get_random_quiz_question_some (s : AppState) (previous : List Int)
    (category : QuizCategory) :
    get_random_quiz_question s ⟨some previous, some category⟩ =
      (if previous.length = (quizCandidates s category.id).length then
        .noQuestion
      else
        match (quizCandidates s category.id).filter
            (fun q => ¬ previous.contains q.id) with
        | [] => .err 500
        | q :: rest => .picked (q :: rest)) := rfl

/-- Claim C3: when the previous ids form a strict subset of the
candidate ids, the picker reaches the random choice and every question
it can return is an unseen member of the candidate set. -/
theorem quiz_pick_unseen_in_candidates (s : AppState) (previous : List Int)
    (category : QuizCategory)
    (hprev : previous.Nodup)
    (hq : (s.questions.map Question.id).Nodup)
    (hsub : ∀ pid ∈ previous,
      pid ∈ (quizCandidates s category.id).map Question.id)
    (hstrict : ∃ qid ∈ (quizCandidates s category.id).map Question.id,
      qid ∉ previous) :
    ∃ choices,
      get_random_quiz_question s ⟨some previous, some category⟩ =
        .picked choices ∧
      choices ≠ [] ∧
      ∀ q ∈ choices, q.id ∉ previous ∧ q ∈ quizCandidates s category.id := by
  have hids : ((quizCandidates s category.id).map Question.id).Nodup :=
    quizCandidates_ids_nodup s category.id hq
  obtain ⟨qid, hqmem, hqnot⟩ := hstrict
  have hssub : previous.toFinset ⊂
      ((quizCandidates s category.id).map Question.id).toFinset := by
    constructor
    · intro x hx
      rw [List.mem_toFinset] at hx ⊢
      exact hsub x hx
    · intro hsup
      exact hqnot (List.mem_toFinset.mp (hsup (List.mem_toFinset.mpr hqmem)))
  have hlt : previous.length < (quizCandidates s category.id).length := by
    have h1 := Finset.card_lt_card hssub
    rw [List.toFinset_card_of_nodup hprev, List.toFinset_card_of_nodup hids,
      List.length_map] at h1
    exact h1
  have hne : previous.length ≠ (quizCandidates s category.id).length :=
    Nat.ne_of_lt hlt
  obtain ⟨q, hqin, hqid⟩ := List.mem_map.mp hqmem
  have hqleft : q ∈ (quizCandidates s category.id).filter
      (fun q => ¬ previous.contains q.id) := by
    rw [List.mem_filter]
    refine ⟨hqin, ?_⟩
    simp [List.contains, hqid, hqnot]
  rw [get_random_quiz_question_some, if_neg hne]
  cases hL : (quizCandidates s category.id).filter
      (fun q => ¬ previous.contains q.id) with
  | nil => rw [hL] at hqleft; exact absurd hqleft (List.not_mem_nil q)
  | cons a rest =>
      refine ⟨a :: rest, rfl, by simp, ?_⟩
      intro x hx
      rw [← hL] at hx
      rw [List.mem_filter] at hx
      refine ⟨?_, hx.1⟩
      have h2 := hx.2
      simp only [List.contains, List.elem_eq_mem, decide_not,
        Bool.not_eq_true', decide_eq_true_eq, decide_eq_false_iff_not] at h2
      exact h2

/-- Witness for C3: Science (category 1) with previous ids `[1]`. -/
theorem quiz_pick_unseen_in_candidates_witness :
    ([1] : List Int).Nodup ∧
    (exState.questions.map Question.id).Nodup ∧
    (∀ pid ∈ ([1] : List Int),
      pid ∈ (quizCandidates exState 1).map Question.id) ∧
    (∃ qid ∈ (quizCandidates exState 1).map Question.id,
      qid ∉ ([1] : List Int)) ∧
    ∃ choices,
      get_random_quiz_question exState ⟨some [1], some ⟨1, "Science"⟩⟩ =
        .picked choices ∧
      choices ≠ [] ∧
      ∀ q ∈ choices, q.id ∉ ([1] : List Int) ∧ q ∈ quizCandidates exState 1 :=
  ⟨by decide, by decide, by decide, by decide,
    quiz_pick_unseen_in_candidates exState [1] ⟨1, "Science"⟩ (by decide)
      (by decide) (by decide) (by decide)⟩

/-- Claim C4: when the previous ids and the candidate ids agree as sets
(both empty included), the quiz answers success with no question
field, a non-error outcome. -/
theorem quiz_exhausted_success_no_question (s : AppState)
    (previous : List Int) (category : QuizCategory)
    (hprev : previous.Nodup)
    (hq : (s.questions.map Question.id).Nodup)
    (heq : ∀ x, x ∈ previous ↔
      x ∈ (quizCandidates s category.id).map Question.id) :
    get_random_quiz_question s ⟨some previous, some category⟩ = .noQuestion := by
  have hids : ((quizCandidates s category.id).map Question.id).Nodup :=
    quizCandidates_ids_nodup s category.id hq
  have hperm : previous.Perm ((quizCandidates s category.id).map Question.id) :=
    (List.perm_ext_iff_of_nodup hprev hids).mpr heq
  have hlen : previous.length = (quizCandidates s category.id).length := by
    have h := hperm.length_eq
    rwa [List.length_map] at h
  rw [get_random_quiz_question_some, if_pos hlen]

/-- Witness for C4: the empty store with the "all categories" sentinel
and no previous questions (the spec's `0 == 0` edge case). -/
theorem quiz_exhausted_success_no_question_witness :
    ([] : List Int).Nodup ∧
    ((AppState.mk [] []).questions.map Question.id).Nodup ∧
    (∀ x, x ∈ ([] : List Int) ↔
      x ∈ (quizCandidates (AppState.mk [] []) 0).map Question.id) ∧
    get_random_quiz_question (AppState.mk [] [])
      ⟨some [], some ⟨0, "click"⟩⟩ = .noQuestion :=
  ⟨by decide, by decide, by simp [quizCandidates],
    quiz_exhausted_success_no_question (AppState.mk [] []) [] ⟨0, "click"⟩
      (by decide) (by decide) (by simp [quizCandidates])⟩

end Trivia
